import Mathlib

/-!
Verification of the flat-storage resharder and the part of the
partial-witness distribution pipeline of a sharded blockchain node.

The definitions below are a shallow embedding of the program:
* `chain/chain/src/flat_storage_resharder.rs` — the flat storage split engine,
* `core/primitives/src/state.rs` — `ValueRef` / `FlatStateValue`,
* `chain/client/src/stateless_validation/partial_witness/partial_witness_actor.rs`
  — the state-witness part handlers.

External collaborators (the key-value store adapter, shard layout routing,
trie-key parsers, the epoch manager, the flat storage manager) are modelled
from the specification, as noted in each doc comment.  Machine integers are
modelled as `Nat` with explicit `% 2 ^ w` where the source performs a
truncating cast.
-/

/-! ## Basic data model -/

/-- An account identifier (opaque string in the source). -/
abbrev AccountId := String

/-- A raw byte string (trie key or value bytes); each element stands for one byte. -/
abbrev Bytes := List Nat

/-- A 32-byte cryptographic hash, modelled as an opaque numeric value. -/
structure CryptoHash where
  val : Nat
deriving DecidableEq, Repr

/-- Modelled from the spec: the opaque value hash computed by
`near_primitives_core::hash::hash`.  No claim depends on the hash function
itself; it only needs to be a computable function of the bytes. -/
def hashBytes (value : Bytes) : CryptoHash :=
  ⟨value.foldl (fun a b => a * 257 + b + 1) 0⟩

/-- `BlockInfo { hash, height, prev_hash }` from the spec's data model. -/
structure BlockInfo where
  hash : CryptoHash
  height : Nat
  prev_hash : CryptoHash
deriving DecidableEq, Repr

/-- `ShardUId = (layout_version, shard_id)`; identifies a shard within a layout. -/
structure ShardUId where
  version : Nat
  shard_id : Nat
deriving DecidableEq, Repr

/-- Modelled from the spec: a shard layout is the function from account id to
shard id at a given version, together with the mapping of shard id to the
versioned `ShardUId` (`§3`, `§4.1`).  The concrete layout type lives in
`near_primitives::shard_layout`, outside the sources under verification. -/
structure ShardLayout where
  account_to_shard_id : AccountId → Nat
  shard_id_to_uid : Nat → ShardUId

/-- Modelled from the spec: `account_id_to_shard_id` maps an account to its
shard id under the given layout. -/
def account_id_to_shard_id (account_id : AccountId) (layout : ShardLayout) : Nat :=
  layout.account_to_shard_id account_id

/-- Modelled from the spec: `ShardUId::from_shard_id_and_layout` attaches the
layout's version to a shard id. -/
def ShardUId.from_shard_id_and_layout (shard_id : Nat) (layout : ShardLayout) : ShardUId :=
  layout.shard_id_to_uid shard_id

/-! ## `core/primitives/src/state.rs` -/

/-- `ValueRef`: state value reference (`length: u32`, `hash`).  The `u32`
length is modelled as a `Nat`; constructors that cast from `usize` truncate
with `% 2 ^ 32` exactly as the source's `as u32` does. -/
structure ValueRef where
  length : Nat
  hash : CryptoHash
deriving DecidableEq, Repr

/-- `ValueRef::new`: `length: value.len() as u32` (truncating cast), hash of the value. -/
def ValueRef.new (value : Bytes) : ValueRef :=
  { length := value.length % 2 ^ 32, hash := hashBytes value }

/-- `ValueRef::len`: `usize::try_from(self.length).unwrap()` — the `u32` always
fits in `usize`, so this is just the stored length. -/
def ValueRef.len (r : ValueRef) : Nat :=
  r.length

/-- `FlatStateValue`: either an inlined byte string or a `ValueRef`. -/
inductive FlatStateValue where
  | Ref (r : ValueRef)
  | Inlined (v : Bytes)
deriving DecidableEq, Repr

/-- `FlatStateValue::to_value_ref`. -/
def FlatStateValue.to_value_ref : FlatStateValue → ValueRef
  | .Ref value_ref => value_ref
  | .Inlined value => ValueRef.new value

/-- `FlatStateValue::value_len`. -/
def FlatStateValue.value_len : FlatStateValue → Nat
  | .Ref value_ref => value_ref.len
  | .Inlined value => value.length

/-- Machine constant `size_of::<FlatStateValue>()` (a fixed positive number of
bytes; its exact value is irrelevant to every claim). -/
def flatStateValueSizeOf : Nat := 32

/-- `FlatStateValue::size`: `size_of::<Self>()` plus, for inlined values, the
vector capacity (modelled as its length). -/
def FlatStateValue.size : FlatStateValue → Nat
  | .Ref _ => flatStateValueSizeOf
  | .Inlined value => flatStateValueSizeOf + value.length

/-! ## Flat storage statuses (`near_store::flat`, modelled from the spec `§3`) -/

/-- `SplittingParentStatus`: the data carried by a parent shard undergoing a split. -/
structure SplittingParentStatus where
  left_child_shard : ShardUId
  right_child_shard : ShardUId
  shard_layout : ShardLayout
  block_hash : CryptoHash
  prev_block_hash : CryptoHash
  flat_head : BlockInfo

/-- `FlatStorageReadyStatus { flat_head }`. -/
structure FlatStorageReadyStatus where
  flat_head : BlockInfo

/-- `FlatStorageReshardingStatus`: `CreatingChild`, `SplittingParent(..)` or
`CatchingUp(target_block_hash)`. -/
inductive FlatStorageReshardingStatus where
  | CreatingChild
  | SplittingParent (status : SplittingParentStatus)
  | CatchingUp (target_block_hash : CryptoHash)

/-- `FlatStorageStatus`: per-shard status slot (spec `§3`). -/
inductive FlatStorageStatus where
  | Empty
  | Ready (status : FlatStorageReadyStatus)
  | Resharding (status : FlatStorageReshardingStatus)

/-! ## Column tags (`near_primitives::trie_key::col`, modelled from the spec `§3`/`§6`)

The first byte of every flat-storage key is its column tag.  The concrete tag
values live outside the sources under verification; the claims only depend on
the tags being fixed and distinct. -/

def col.ACCOUNT : Nat := 0
def col.CONTRACT_CODE : Nat := 1
def col.ACCESS_KEY : Nat := 2
def col.RECEIVED_DATA : Nat := 3
def col.POSTPONED_RECEIPT_ID : Nat := 4
def col.PENDING_DATA_COUNT : Nat := 5
def col.POSTPONED_RECEIPT : Nat := 6
def col.DELAYED_RECEIPT_OR_INDICES : Nat := 7
def col.CONTRACT_DATA : Nat := 9
def col.PROMISE_YIELD_INDICES : Nat := 10
def col.PROMISE_YIELD_TIMEOUT : Nat := 11
def col.PROMISE_YIELD_RECEIPT : Nat := 12
def col.BUFFERED_RECEIPT_INDICES : Nat := 13
def col.BUFFERED_RECEIPT : Nat := 14

/-- The eight account-identified column tags (spec `§3`). -/
def accountColumns : List Nat :=
  [col.ACCOUNT, col.CONTRACT_DATA, col.CONTRACT_CODE, col.ACCESS_KEY, col.RECEIVED_DATA,
    col.POSTPONED_RECEIPT_ID, col.PENDING_DATA_COUNT, col.POSTPONED_RECEIPT]

/-- The column tags copied to both children (spec `§3`). -/
def bothChildrenColumns : List Nat :=
  [col.DELAYED_RECEIPT_OR_INDICES, col.PROMISE_YIELD_INDICES, col.PROMISE_YIELD_TIMEOUT,
    col.PROMISE_YIELD_RECEIPT]

/-- The column tags copied to the left child only (spec `§3`). -/
def leftChildColumns : List Nat :=
  [col.BUFFERED_RECEIPT_INDICES, col.BUFFERED_RECEIPT]

/-! ## Flat store adapter (modelled from the spec `§4.2`/`§6`)

The store is the typed key-value view the split engine consumes: a status slot
per shard, flat values keyed by `(ShardUId, key)`, and a delta log keyed by
`(ShardUId, block_hash)`.  Writes accumulate on a batch (a list of primitive
store operations) and `commit` applies them atomically, in order. -/

/-- A single primitive write accumulated on a `FlatStoreUpdateAdapter` batch. -/
inductive StoreOp where
  | setStatus (shard : ShardUId) (st : FlatStorageStatus)
  | set (shard : ShardUId) (key : Bytes) (value : Option FlatStateValue)
  | removeAllValues (shard : ShardUId)
  | removeAllDeltas (shard : ShardUId)
  | removeFlatStorage (shard : ShardUId)

/-- The on-disk state visible to the resharder. -/
structure FlatStore where
  status : ShardUId → FlatStorageStatus
  values : ShardUId → Bytes → Option FlatStateValue
  deltas : ShardUId → CryptoHash → Option (List (Bytes × Option FlatStateValue))

/-- Effect of one primitive store operation. -/
def applyOp (s : FlatStore) : StoreOp → FlatStore
  | .setStatus shard st =>
      { s with status := fun u => if u = shard then st else s.status u }
  | .set shard key value =>
      { s with values := fun u k => if u = shard ∧ k = key then value else s.values u k }
  | .removeAllValues shard =>
      { s with values := fun u k => if u = shard then none else s.values u k }
  | .removeAllDeltas shard =>
      { s with deltas := fun u b => if u = shard then none else s.deltas u b }
  | .removeFlatStorage shard =>
      { status := fun u => if u = shard then .Empty else s.status u
        values := fun u k => if u = shard then none else s.values u k
        deltas := fun u b => if u = shard then none else s.deltas u b }

/-- Atomic commit of a batch: apply its operations in order. -/
def applyBatch (s : FlatStore) (batch : List StoreOp) : FlatStore :=
  batch.foldl applyOp s

/-! ## Errors -/

/-- `near_store::StorageError` (the variants the resharder produces). -/
inductive StorageError where
  | FlatStorageReshardingAlreadyInProgress
  | StorageInconsistentState (msg : String)
deriving DecidableEq, Repr

/-- `near_chain_primitives::Error` (the variants the resharder produces),
with a dedicated variant for `panic!`/`unreachable!` aborts so that the
embedding distinguishes an error return from a process abort. -/
inductive SplitError where
  | StorageError (e : StorageError)
  | ReshardingError (msg : String)
  | IoError (msg : String)
  | panicked (msg : String)
deriving DecidableEq, Repr

/-! ## Trie-key account-id parsers

The parsers live in `near_primitives::trie_key::trie_key_parsers`, outside the
sources under verification.  Modelled from the spec (`§3`): each
account-identified column has a parser that extracts an account id from the
raw key, and may fail with an io error. -/

/-- Modelled from the spec: the bundle of column-specific account-id parsers
used by `shard_split_handle_key_value`. -/
structure TrieKeyParsers where
  parse_account_id_from_account_key : Bytes → Except String AccountId
  parse_account_id_from_contract_data_key : Bytes → Except String AccountId
  parse_account_id_from_contract_code_key : Bytes → Except String AccountId
  parse_account_id_from_access_key_key : Bytes → Except String AccountId
  parse_account_id_from_received_data_key : Bytes → Except String AccountId
  parse_account_id_from_trie_key_with_separator : Nat → Bytes → Except String AccountId

/-! ## Key routing (`flat_storage_resharder.rs`, lines 499-608) -/

/-- `copy_kv_to_child`: derives the child `ShardUId` for the key's account id
under the new layout, errors when it is neither child, and otherwise appends a
single `set` to the batch (`store_update.set(new_shard_uid, key, value)`). -/
def copy_kv_to_child (status : SplittingParentStatus) (key : Bytes)
    (value : Option FlatStateValue) (store_update : List StoreOp)
    (account_id_extractor : Bytes → Except String AccountId) :
    Except SplitError (List StoreOp) := do
  let account_id ← (account_id_extractor key).mapError SplitError.IoError
  let new_shard_id := account_id_to_shard_id account_id status.shard_layout
  let new_shard_uid := ShardUId.from_shard_id_and_layout new_shard_id status.shard_layout
  if new_shard_uid ≠ status.left_child_shard ∧ new_shard_uid ≠ status.right_child_shard then
    .error (.ReshardingError "account id doesn't map to any child shard!")
  else
    .ok (store_update ++ [.set new_shard_uid key value])

/-- `copy_kv_to_all_children`: writes the pair to both children. -/
def copy_kv_to_all_children (status : SplittingParentStatus) (key : Bytes)
    (value : Option FlatStateValue) (store_update : List StoreOp) : List StoreOp :=
  store_update ++ [.set status.left_child_shard key value,
    .set status.right_child_shard key value]

/-- `copy_kv_to_left_child`: writes the pair to the left child only. -/
def copy_kv_to_left_child (status : SplittingParentStatus) (key : Bytes)
    (value : Option FlatStateValue) (store_update : List StoreOp) : List StoreOp :=
  store_update ++ [.set status.left_child_shard key value]

/-- `shard_split_handle_key_value`: dispatch on the key's first byte.  An empty
key hits `panic!("flat storage key is empty!")` and an unknown column tag hits
`unreachable!()`; both are modelled as the `panicked` outcome (a process abort,
not an error return). -/
def shard_split_handle_key_value (P : TrieKeyParsers) (key : Bytes)
    (value : Option FlatStateValue) (store_update : List StoreOp)
    (status : SplittingParentStatus) : Except SplitError (List StoreOp) :=
  match key with
  | [] => .error (.panicked "flat storage key is empty!")
  | key_column_tag :: _ =>
    if key_column_tag = col.ACCOUNT then
      copy_kv_to_child status key value store_update P.parse_account_id_from_account_key
    else if key_column_tag = col.CONTRACT_DATA then
      copy_kv_to_child status key value store_update P.parse_account_id_from_contract_data_key
    else if key_column_tag = col.CONTRACT_CODE then
      copy_kv_to_child status key value store_update P.parse_account_id_from_contract_code_key
    else if key_column_tag = col.ACCESS_KEY then
      copy_kv_to_child status key value store_update P.parse_account_id_from_access_key_key
    else if key_column_tag = col.RECEIVED_DATA then
      copy_kv_to_child status key value store_update P.parse_account_id_from_received_data_key
    else if key_column_tag = col.POSTPONED_RECEIPT_ID ∨
        key_column_tag = col.PENDING_DATA_COUNT ∨
        key_column_tag = col.POSTPONED_RECEIPT then
      copy_kv_to_child status key value store_update
        (fun raw_key => P.parse_account_id_from_trie_key_with_separator key_column_tag raw_key)
    else if key_column_tag = col.DELAYED_RECEIPT_OR_INDICES ∨
        key_column_tag = col.PROMISE_YIELD_INDICES ∨
        key_column_tag = col.PROMISE_YIELD_TIMEOUT ∨
        key_column_tag = col.PROMISE_YIELD_RECEIPT then
      .ok (copy_kv_to_all_children status key value store_update)
    else if key_column_tag = col.BUFFERED_RECEIPT_INDICES ∨
        key_column_tag = col.BUFFERED_RECEIPT then
      .ok (copy_kv_to_left_child status key value store_update)
    else
      .error (.panicked "unreachable")

/-- The column-specific parser selected by `shard_split_handle_key_value` for
an account-identified column tag (mirrors the dispatch above). -/
def columnParser (P : TrieKeyParsers) (c : Nat) : Bytes → Except String AccountId :=
  if c = col.ACCOUNT then P.parse_account_id_from_account_key
  else if c = col.CONTRACT_DATA then P.parse_account_id_from_contract_data_key
  else if c = col.CONTRACT_CODE then P.parse_account_id_from_contract_code_key
  else if c = col.ACCESS_KEY then P.parse_account_id_from_access_key_key
  else if c = col.RECEIVED_DATA then P.parse_account_id_from_received_data_key
  else fun raw_key => P.parse_account_id_from_trie_key_with_separator c raw_key

/-! ## Merging iterator (`flat_storage_resharder.rs`, lines 409-474) -/

/-- `FlatStorageError` from the base iterator's items. -/
abbrev FlatStorageError := String

/-- `FlatStorageAndDeltaIterItem`: an `Entry` (a fallible key/value pair, the
value `none` for a delta tombstone) or a `CommitPoint` marker. -/
inductive FlatStorageAndDeltaIterItem where
  | Entry (e : Except FlatStorageError (Bytes × Option FlatStateValue))
  | CommitPoint

/-- The `for block in blocks_to_head` loop of `flat_storage_iterator`,
accumulating the chained iterator `it`: a block with no delta is skipped
(`continue`), a block with a delta appends a `CommitPoint` and the delta's
entries, and a failing delta read aborts with the storage error. -/
def chainDeltas
    (get_delta : CryptoHash → Except String (Option (List (Bytes × Option FlatStateValue)))) :
    List CryptoHash → List FlatStorageAndDeltaIterItem →
    Except String (List FlatStorageAndDeltaIterItem)
  | [], it => .ok it
  | block :: rest, it => do
    let deltas ← get_delta block
    match deltas with
    | none => chainDeltas get_delta rest it
    | some ds =>
        chainDeltas get_delta rest (it ++ [FlatStorageAndDeltaIterItem.CommitPoint] ++
          ds.map (fun kv => FlatStorageAndDeltaIterItem.Entry (.ok kv)))

/-- `flat_storage_iterator`: starts from the base iterator over the shard's
flat storage (each value wrapped in `some`), then, for each block on the path
from the flat head to `block_hash` taken in ascending height order
(`blocks_to_head` is returned head-first and reversed), appends a
`CommitPoint` followed by the block's delta entries whenever
`get_delta` finds a delta, and skips the block entirely otherwise.  A failing
delta read aborts iterator construction with the storage error. -/
def flat_storage_iterator
    (base : List (Except FlatStorageError (Bytes × FlatStateValue)))
    (blocks_to_head : List CryptoHash)
    (get_delta : CryptoHash → Except String (Option (List (Bytes × Option FlatStateValue)))) :
    Except String (List FlatStorageAndDeltaIterItem) :=
  chainDeltas get_delta blocks_to_head.reverse
    (base.map (fun e =>
      FlatStorageAndDeltaIterItem.Entry (e.map (fun kv => (kv.1, some kv.2)))))

/-! ## Split task (`flat_storage_resharder.rs`, lines 247-346) -/

/-- `FlatStorageReshardingTaskStatus`. -/
inductive FlatStorageReshardingTaskStatus where
  | Successful (num_batches_done : Nat)
  | Failed
  | Cancelled
deriving DecidableEq, Repr

/-- The observable outcome of running the split task body: a returned status,
a process abort (`panic!` / `unreachable!` propagating out of the copy), or
nontermination (the fuel cutoff of the Rust `loop`, reachable only when
`batch_size = 0`). -/
inductive TaskOutcome where
  | result (s : FlatStorageReshardingTaskStatus)
  | panicked (msg : String)
  | diverged
deriving DecidableEq, Repr

/-- Events of the task run, in order: a read of the cancellation flag (with the
value read), the processing of one iterator entry, and a batch commit. -/
inductive TraceEv where
  | check (cancelled : Bool)
  | entry
  | commit
deriving DecidableEq, Repr

/-- Result of draining one batch worth of iterator items (the inner `while` of
`split_shard_task_impl`): a fatal handler or read error, an abort, or the
updated batch together with the remaining items, the `iter_exhausted` flag and
the number of entries consumed. -/
inductive DrainResult where
  | failed (entries : Nat)
  | panicked (msg : String) (entries : Nat)
  | drained (store_update : List StoreOp) (rest : List FlatStorageAndDeltaIterItem)
      (iter_exhausted : Bool) (entries : Nat)

/-- The inner `while processed_size < batch_size && !iter_exhausted` loop of
`split_shard_task_impl`: a `CommitPoint` breaks out, an entry is routed through
`shard_split_handle_key_value` after accumulating
`key.len() + value.size_or_zero()`, a read error or handler error aborts the
task, and an exhausted iterator sets `iter_exhausted`. -/
def drainBatch (P : TrieKeyParsers) (status : SplittingParentStatus) (batch_size : Nat) :
    List FlatStorageAndDeltaIterItem → Nat → List StoreOp → Nat → DrainResult
  | items, processed_size, store_update, entries =>
    if processed_size < batch_size then
      match items with
      | [] => .drained store_update [] true entries
      | .CommitPoint :: rest => .drained store_update rest false entries
      | .Entry (.error _) :: _ => .failed entries
      | .Entry (.ok (key, value)) :: rest =>
        let processed_size :=
          processed_size + key.length + (value.map FlatStateValue.size).getD 0
        match shard_split_handle_key_value P key value store_update status with
        | .error (.panicked m) => .panicked m (entries + 1)
        | .error _ => .failed (entries + 1)
        | .ok upd => drainBatch P status batch_size rest processed_size upd (entries + 1)
    else .drained store_update items false entries

/-- The outer `loop` of `split_shard_task_impl`: drain a batch, commit it,
then return `Successful` if the iterator was exhausted, else consult the
cancellation flag (modelled as the sequence of values the flag has at the
successive reads), and otherwise sleep and continue.  `fuel` bounds the number
of loop iterations; the Rust loop has no such bound. -/
def splitLoop (P : TrieKeyParsers) (status : SplittingParentStatus) (batch_size : Nat)
    (flag : Nat → Bool) :
    Nat → List FlatStorageAndDeltaIterItem → Nat → Nat → TaskOutcome × List TraceEv
  | 0, _, _, _ => (.diverged, [])
  | fuel + 1, items, check_idx, num_batches_done =>
    match drainBatch P status batch_size items 0 [] 0 with
    | .failed n => (.result .Failed, List.replicate n .entry)
    | .panicked m n => (.panicked m, List.replicate n .entry)
    | .drained _ rest iter_exhausted n =>
      let num_batches_done := num_batches_done + 1
      if iter_exhausted then
        (.result (.Successful num_batches_done), List.replicate n .entry ++ [.commit])
      else if flag check_idx then
        (.result .Cancelled, List.replicate n .entry ++ [.commit, .check true])
      else
        let r := splitLoop P status batch_size flag fuel rest (check_idx + 1) num_batches_done
        (r.1, List.replicate n .entry ++ [.commit, .check false] ++ r.2)

/-- `split_shard_task_impl`: first consults the cancellation flag (read index
`0`), short-circuiting to `Cancelled`, and otherwise runs the batched copy
over the merging iterator's items.  The parent status and the iterator are
taken as arguments (their successful retrieval is embedded); batch commits are
modelled as succeeding. -/
def split_shard_task_impl (fuel : Nat) (P : TrieKeyParsers)
    (status : SplittingParentStatus) (batch_size : Nat) (flag : Nat → Bool)
    (items : List FlatStorageAndDeltaIterItem) : TaskOutcome × List TraceEv :=
  if flag 0 then (.result .Cancelled, [.check true])
  else
    let r := splitLoop P status batch_size flag fuel items 1 0
    (r.1, .check false :: r.2)

/-! ## Resharder state, start and resume (`flat_storage_resharder.rs`, lines 103-245) -/

/-- `FlatStorageReshardingEventStatus`: the process-wide in-progress event slot's content. -/
inductive FlatStorageReshardingEventStatus where
  | SplitShard (parent_shard : ShardUId) (status : SplittingParentStatus)

/-- The mutable state of the `FlatStorageResharder` visible to the claims: the
flat store, the in-progress resharding-event slot, and the requests handed to
the scheduler (each `FlatStorageSplitShardRequest` is identified by the
parent shard and splitting status it will run with). -/
structure ResharderState where
  store : FlatStore
  resharding_event : Option FlatStorageReshardingEventStatus
  scheduled : List (ShardUId × SplittingParentStatus)

/-- `retrieve_shard_flat_head`: the shard's status must be `Ready`. -/
def retrieve_shard_flat_head (shard : ShardUId) (store : FlatStore) :
    Except SplitError BlockInfo :=
  match store.status shard with
  | .Ready r => .ok r.flat_head
  | _ => .error (.ReshardingError "flat storage shard status is not ready!")

/-- `check_no_resharding_in_progress`: errors when the event slot is occupied. -/
def check_no_resharding_in_progress (s : ResharderState) : Except SplitError Unit :=
  if s.resharding_event.isSome then
    .error (.StorageError .FlatStorageReshardingAlreadyInProgress)
  else .ok ()

/-- `schedule_split_shard`: sets the resharding event and sends a
`FlatStorageSplitShardRequest` to the scheduler. -/
def schedule_split_shard (parent_shard : ShardUId) (status : SplittingParentStatus)
    (s : ResharderState) : ResharderState :=
  { s with
    resharding_event := some (.SplitShard parent_shard status)
    scheduled := s.scheduled ++ [(parent_shard, status)] }

/-- `ReshardingSplitShardParams` (the fields `split_shard` destructures). -/
structure ReshardingSplitShardParams where
  parent_shard : ShardUId
  left_child_shard : ShardUId
  right_child_shard : ShardUId
  block_hash : CryptoHash
  prev_block_hash : CryptoHash

/-- `split_shard`: checks that no resharding event is in progress, retrieves
the parent's `Ready` flat head, commits the three status writes in one batch
and schedules the split task.  On error the state is returned unchanged (the
source errors out before `store_update.commit()` and before
`schedule_split_shard`). -/
def split_shard (split_params : ReshardingSplitShardParams) (shard_layout : ShardLayout)
    (s : ResharderState) : Except SplitError Unit × ResharderState :=
  match check_no_resharding_in_progress s with
  | .error e => (.error e, s)
  | .ok () =>
    match retrieve_shard_flat_head split_params.parent_shard s.store with
    | .error e => (.error e, s)
    | .ok flat_head =>
      let status : SplittingParentStatus :=
        { left_child_shard := split_params.left_child_shard
          right_child_shard := split_params.right_child_shard
          shard_layout := shard_layout
          block_hash := split_params.block_hash
          prev_block_hash := split_params.prev_block_hash
          flat_head := flat_head }
      let batch : List StoreOp :=
        [.setStatus split_params.parent_shard (.Resharding (.SplittingParent status)),
          .setStatus split_params.left_child_shard (.Resharding .CreatingChild),
          .setStatus split_params.right_child_shard (.Resharding .CreatingChild)]
      let s' := { s with store := applyBatch s.store batch }
      (.ok (), schedule_split_shard split_params.parent_shard status s')

/-- `clean_children_shards`: removes deltas and values (but not the status) of
both children, in one committed batch. -/
def clean_children_shards (status : SplittingParentStatus) (store : FlatStore) : FlatStore :=
  applyBatch store
    [.removeAllDeltas status.left_child_shard, .removeAllValues status.left_child_shard,
      .removeAllDeltas status.right_child_shard, .removeAllValues status.right_child_shard]

/-- Outcome of `resume` (the `CatchingUp` arm hits `todo!()`, an abort). -/
inductive ResumeOutcome where
  | ok
  | err (e : SplitError)
  | panicked (msg : String)
deriving Repr

/-- `resume`: `CreatingChild` is a no-op, `SplittingParent` checks the event
slot, cleans both children and reschedules the split with the stored status,
`CatchingUp` is unimplemented (`todo!()`). -/
def resume (shard_uid : ShardUId) (status : FlatStorageReshardingStatus)
    (s : ResharderState) : ResumeOutcome × ResharderState :=
  match status with
  | .CreatingChild => (.ok, s)
  | .SplittingParent st =>
    match check_no_resharding_in_progress s with
    | .error e => (.err e, s)
    | .ok () =>
      let s' := { s with store := clean_children_shards st s.store }
      (.ok, schedule_split_shard shard_uid st s')
  | .CatchingUp _ => (.panicked "not yet implemented", s)

/-! ## Post-processing (`flat_storage_resharder.rs`, lines 348-407) -/

/-- Actions post-processing performs on shared state, in order: the atomic
commit of its store batch, then the clearing of the resharding-event slot. -/
inductive PostAction where
  | commit (batch : List StoreOp)
  | clearEvent

/-- Modelled from the spec (`§4.4`):
`FlatStorageManager::remove_flat_storage_for_shard` removes the manager's flat
storage object for the shard when it holds one, adding the removal of the
shard's data to the batch, and returns whether it held one. -/
def remove_flat_storage_for_shard (manager_has_shard : Bool) (shard : ShardUId)
    (store_update : List StoreOp) : Bool × List StoreOp :=
  if manager_has_shard then (true, store_update ++ [.removeFlatStorage shard])
  else (false, store_update)

/-- `split_shard_task_postprocessing`: reads the parent shard and splitting
status from the event slot (`.expect` aborts when it is empty, modelled as
`none`); on `Successful` removes the parent's flat storage (manager entry
first, raw data if the manager had none) and flips both children to
`Resharding(CatchingUp(flat_head.hash))`; on `Failed`/`Cancelled` resets the
parent to `Ready(flat_head)` and removes both children's flat storages.  The
batch is committed atomically and only then is the event slot cleared. -/
def split_shard_task_postprocessing (manager_has_parent : Bool)
    (task_status : FlatStorageReshardingTaskStatus) (s : ResharderState) :
    Option (ResharderState × List PostAction) :=
  match s.resharding_event with
  | none => none
  | some (.SplitShard parent_shard split_status) =>
    let batch : List StoreOp :=
      match task_status with
      | .Successful _ =>
        let (removed, upd) := remove_flat_storage_for_shard manager_has_parent parent_shard []
        let upd := if removed then upd else upd ++ [.removeFlatStorage parent_shard]
        upd ++ [.setStatus split_status.left_child_shard
            (.Resharding (.CatchingUp split_status.flat_head.hash)),
          .setStatus split_status.right_child_shard
            (.Resharding (.CatchingUp split_status.flat_head.hash))]
      | .Failed | .Cancelled =>
        [.setStatus parent_shard (.Ready ⟨split_status.flat_head⟩),
          .removeFlatStorage split_status.left_child_shard,
          .removeFlatStorage split_status.right_child_shard]
    some ({ s with store := applyBatch s.store batch, resharding_event := none },
      [.commit batch, .clearEvent])

/-! ## Partial-witness actor (`partial_witness_actor.rs`, lines 325-393)

Only the data the two state-witness part handlers touch is modelled.  The
epoch manager, the signer and the validation function are external services,
modelled from the spec as environment parameters. -/

/-- `ChunkProductionKey = (epoch_id, shard_id, height_created)`. -/
structure ChunkProductionKey where
  epoch_id : Nat
  shard_id : Nat
  height_created : Nat
deriving DecidableEq, Repr

/-- `PartialEncodedStateWitness`: a state-witness part (production key,
part ordinal, data and declared encoded length; the signature is checked by
the external validation function). -/
structure PartialEncodedStateWitness where
  key : ChunkProductionKey
  part_ord : Nat
  data : Bytes
  encoded_length : Nat
deriving DecidableEq, Repr

/-- `PartialEncodedStateWitness::chunk_production_key`. -/
def PartialEncodedStateWitness.chunk_production_key (w : PartialEncodedStateWitness) :
    ChunkProductionKey :=
  w.key

/-- Modelled from the spec (`§2`, `§4.5`): the epoch-manager queries the
handlers issue — the chunk producer for a production key and the ordered
chunk-validator assignment — plus the external
`validate_partial_encoded_state_witness` predicate, which may error. -/
structure WitnessEnv where
  get_chunk_producer : ChunkProductionKey → Except String AccountId
  ordered_chunk_validators : ChunkProductionKey → Except String (List AccountId)
  validate : PartialEncodedStateWitness → Except String Bool
  my_signer : Option AccountId

/-- A network request the actor hands to the network adapter. -/
inductive NetworkRequest where
  | PartialEncodedStateWitnessForward (targets : List AccountId)
      (w : PartialEncodedStateWitness)
deriving DecidableEq, Repr

/-- The actor state the two handlers touch: the partial-witness tracker
(modelled from the spec as the list of stored parts) and the requests sent to
the network adapter. -/
structure WitnessActorState where
  tracker : List PartialEncodedStateWitness
  outbox : List NetworkRequest
deriving DecidableEq, Repr

/-- `forward_state_witness_part`: forwards the part to the ordered chunk
validators of its production key, excluding the chunk producer that produced
the witness. -/
def forwardStateWitnessPart (env : WitnessEnv) (w : PartialEncodedStateWitness)
    (s : WitnessActorState) : Except String WitnessActorState := do
  let k := w.chunk_production_key
  let chunk_producer ← env.get_chunk_producer k
  let validators ← env.ordered_chunk_validators k
  let target_chunk_validators := validators.filter (fun v => v ≠ chunk_producer)
  .ok { s with
    outbox := s.outbox ++ [.PartialEncodedStateWitnessForward target_chunk_validators w] }

/-- `handle_partial_encoded_state_witness`: requires a signer, validates the
part, and on success forwards it; it does not touch the tracker. -/
def handlePartialEncodedStateWitness (env : WitnessEnv) (w : PartialEncodedStateWitness)
    (s : WitnessActorState) : Except String WitnessActorState := do
  match env.my_signer with
  | none => .error "not a validator"
  | some _ =>
    let ok ← env.validate w
    if ok then forwardStateWitnessPart env w s
    else .ok s

/-- `handle_partial_encoded_state_witness_forward`: requires a signer,
validates the part, and on success stores it in the partial-witness tracker
(`store_partial_encoded_state_witness`, modelled from the spec as appending
to the stored parts). -/
def handlePartialEncodedStateWitnessForward (env : WitnessEnv)
    (w : PartialEncodedStateWitness) (s : WitnessActorState) :
    Except String WitnessActorState := do
  match env.my_signer with
  | none => .error "not a validator"
  | some _ =>
    let ok ← env.validate w
    if ok then .ok { s with tracker := s.tracker ++ [w] }
    else .ok s

/-! ## Test fixtures

Concrete instances used by witnesses and counterexamples.  The layout mirrors
the source's test setup: parent shard `1` splits into children `2` and `3`
(layout version `3`), account `mm` routes to the left child, `vv` to the
right child, and `aa` to the unrelated shard `0`. -/

/-- Fixture: left child shard. -/
def tLeft : ShardUId := ⟨3, 2⟩

/-- Fixture: right child shard. -/
def tRight : ShardUId := ⟨3, 3⟩

/-- Fixture: parent shard. -/
def tParent : ShardUId := ⟨3, 1⟩

/-- Fixture: the post-split shard layout. -/
def tLayout : ShardLayout :=
  { account_to_shard_id := fun a => if a = "mm" then 2 else if a = "vv" then 3 else 0
    shard_id_to_uid := fun i => ⟨3, i⟩ }

/-- Fixture: the parent's flat head. -/
def tFlatHead : BlockInfo := ⟨⟨100⟩, 5, ⟨99⟩⟩

/-- Fixture: a splitting-parent status. -/
def tStatus : SplittingParentStatus :=
  { left_child_shard := tLeft, right_child_shard := tRight, shard_layout := tLayout,
    block_hash := ⟨200⟩, prev_block_hash := ⟨199⟩, flat_head := tFlatHead }

/-- Fixture: parsers that extract account `mm` from every key. -/
def tParsers : TrieKeyParsers :=
  { parse_account_id_from_account_key := fun _ => .ok "mm"
    parse_account_id_from_contract_data_key := fun _ => .ok "mm"
    parse_account_id_from_contract_code_key := fun _ => .ok "mm"
    parse_account_id_from_access_key_key := fun _ => .ok "mm"
    parse_account_id_from_received_data_key := fun _ => .ok "mm"
    parse_account_id_from_trie_key_with_separator := fun _ _ => .ok "mm" }

/-- Fixture: parsers that extract account `aa` (which routes to neither child). -/
def tParsersAA : TrieKeyParsers :=
  { parse_account_id_from_account_key := fun _ => .ok "aa"
    parse_account_id_from_contract_data_key := fun _ => .ok "aa"
    parse_account_id_from_contract_code_key := fun _ => .ok "aa"
    parse_account_id_from_access_key_key := fun _ => .ok "aa"
    parse_account_id_from_received_data_key := fun _ => .ok "aa"
    parse_account_id_from_trie_key_with_separator := fun _ _ => .ok "aa" }

/-! ## C10 — `value_len` versus `to_value_ref().len()` -/

/-- Any inlined value of exactly `2 ^ 32` bytes violates the length identity,
because `ValueRef::new` truncates the length to `u32`. -/
theorem value_len_ne_of_u32_overflow (l : Bytes) (hl : l.length = 2 ^ 32) :
    ¬ (FlatStateValue.Inlined l).value_len = (FlatStateValue.Inlined l).to_value_ref.len := by
  intro h
  have h' : l.length = l.length % 2 ^ 32 := h
  rw [hl, Nat.mod_self] at h'
  exact absurd h' (by norm_num)

/-- C10 counterexample: the claim "for every `FlatStateValue v`,
`v.value_len()` equals `v.to_value_ref().len()`" fails on the code for an
inlined value of `2 ^ 32` bytes: `ValueRef::new` stores `value.len() as u32`,
a truncating cast, so `to_value_ref().len()` is `0` while `value_len()` is
`2 ^ 32`. -/
theorem C10_counterexample :
    ¬ (FlatStateValue.Inlined (List.replicate (2 ^ 32) 0)).value_len =
      (FlatStateValue.Inlined (List.replicate (2 ^ 32) 0)).to_value_ref.len :=
  value_len_ne_of_u32_overflow (List.replicate (2 ^ 32) 0) (List.length_replicate ..)

/-- C10 (amended): for every `FlatStateValue v` whose inlined byte length fits
in a `u32` (every value the node materialises in practice), `v.value_len()`
equals `v.to_value_ref().len()`: converting an inlined value to a `ValueRef`
preserves the reported byte length, so length-based accounting is independent
of whether a value is inlined or referenced. -/
theorem C10_value_len_eq_to_value_ref_len (v : FlatStateValue)
    (h : ∀ b, v = .Inlined b → b.length < 2 ^ 32) :
    v.value_len = v.to_value_ref.len := by
  cases v with
  | Ref r => rfl
  | Inlined b =>
    have hb := h b rfl
    show b.length = b.length % 2 ^ 32
    exact (Nat.mod_eq_of_lt hb).symm

/-- C10 witness: the amended theorem applied to the inlined value `[1, 2, 3]`. -/
theorem C10_value_len_eq_to_value_ref_len_witness :
    (FlatStateValue.Inlined [1, 2, 3]).value_len =
      (FlatStateValue.Inlined [1, 2, 3]).to_value_ref.len :=
  C10_value_len_eq_to_value_ref_len (FlatStateValue.Inlined [1, 2, 3])
    (by intro b hb; cases hb; decide)

/-! ## C1 — routing of account-keyed entries -/

/-- The child `ShardUId` derived for an account id in `copy_kv_to_child`
(`let new_shard_id = account_id_to_shard_id(..); let new_shard_uid =
ShardUId::from_shard_id_and_layout(..)`). -/
def derived_child_uid (status : SplittingParentStatus) (account_id : AccountId) : ShardUId :=
  ShardUId.from_shard_id_and_layout
    (account_id_to_shard_id account_id status.shard_layout) status.shard_layout

/-- `copy_kv_to_child`, after a successful parse, either errors (derived uid is
neither child) or appends exactly one `set` to the derived child. -/
theorem copy_kv_to_child_spec (status : SplittingParentStatus) (key : Bytes)
    (value : Option FlatStateValue) (store_update : List StoreOp)
    (parser : Bytes → Except String AccountId) (account_id : AccountId)
    (hparse : parser key = .ok account_id) :
    copy_kv_to_child status key value store_update parser =
      if derived_child_uid status account_id ≠ status.left_child_shard ∧
          derived_child_uid status account_id ≠ status.right_child_shard then
        .error (.ReshardingError "account id doesn't map to any child shard!")
      else
        .ok (store_update ++ [.set (derived_child_uid status account_id) key value]) := by
  unfold copy_kv_to_child derived_child_uid
  rw [hparse]
  rfl

/-- On an account-identified column tag, `shard_split_handle_key_value` is
exactly `copy_kv_to_child` with that column's parser. -/
theorem handle_account_column (P : TrieKeyParsers) (status : SplittingParentStatus)
    (c : Nat) (rest : Bytes) (value : Option FlatStateValue) (store_update : List StoreOp)
    (hc : c ∈ accountColumns) :
    shard_split_handle_key_value P (c :: rest) value store_update status =
      copy_kv_to_child status (c :: rest) value store_update (columnParser P c) := by
  simp only [accountColumns, List.mem_cons, List.mem_singleton, List.not_mem_nil, or_false] at hc
  rcases hc with rfl | rfl | rfl | rfl | rfl | rfl | rfl | rfl <;> rfl

/-- C1: for an account-keyed flat-storage entry `(k, v)` (column tag in
ACCOUNT, CONTRACT_DATA, CONTRACT_CODE, ACCESS_KEY, RECEIVED_DATA,
POSTPONED_RECEIPT_ID, PENDING_DATA_COUNT, POSTPONED_RECEIPT), the split
handler writes `(k, v)` to exactly the child `ShardUId` derived from `k`'s
account id under the new layout — the batch gains the single write
`set u k v` and nothing else — and it fails with an error, performing no
write, whenever that derived `ShardUId` is neither the left child nor the
right child. -/
theorem C1_account_key_routing (P : TrieKeyParsers) (status : SplittingParentStatus)
    (key : Bytes) (c : Nat) (rest : Bytes) (value : Option FlatStateValue)
    (store_update : List StoreOp) (account_id : AccountId)
    (hkey : key = c :: rest) (hc : c ∈ accountColumns)
    (hparse : columnParser P c key = .ok account_id) :
    (derived_child_uid status account_id = status.left_child_shard ∨
        derived_child_uid status account_id = status.right_child_shard →
      shard_split_handle_key_value P key value store_update status =
        .ok (store_update ++ [.set (derived_child_uid status account_id) key value])) ∧
    (derived_child_uid status account_id ≠ status.left_child_shard →
      derived_child_uid status account_id ≠ status.right_child_shard →
      shard_split_handle_key_value P key value store_update status =
        .error (.ReshardingError "account id doesn't map to any child shard!")) := by
  subst hkey
  rw [handle_account_column P status c rest value store_update hc,
    copy_kv_to_child_spec status (c :: rest) value store_update (columnParser P c)
      account_id hparse]
  constructor
  · intro hu
    rcases hu with h | h <;> simp [h]
  · intro h1 h2
    simp [h1, h2]

/-- C1 witness: with the fixture layout, an ACCOUNT-column key for account
`mm` is written exactly to the left child, and an ACCOUNT-column key parsing
to account `aa` (routing to shard `0`) makes the handler fail. -/
theorem C1_account_key_routing_witness :
    (shard_split_handle_key_value tParsers [0, 7] (some (.Inlined [1])) [] tStatus =
      .ok [.set tLeft [0, 7] (some (.Inlined [1]))]) ∧
    (shard_split_handle_key_value tParsersAA [0, 7] (some (.Inlined [1])) [] tStatus =
      .error (.ReshardingError "account id doesn't map to any child shard!")) := by
  constructor
  · exact (C1_account_key_routing tParsers tStatus [0, 7] 0 [7] (some (.Inlined [1])) []
      "mm" rfl (by decide) rfl).1 (Or.inl rfl)
  · exact (C1_account_key_routing tParsersAA tStatus [0, 7] 0 [7] (some (.Inlined [1])) []
      "aa" rfl (by decide) rfl).2 (by decide) (by decide)

/-! ## C2 — shape of the merging iterator's yield -/

/-- When every delta read succeeds, chaining deltas appends, for each block in
order, nothing (no delta) or a `CommitPoint` followed by the delta's entries. -/
theorem chainDeltas_ok (delta : CryptoHash → Option (List (Bytes × Option FlatStateValue)))
    (blocks : List CryptoHash) :
    ∀ it, chainDeltas (fun b => .ok (delta b)) blocks it =
      .ok (it ++ blocks.flatMap (fun b =>
        match delta b with
        | none => []
        | some ds => FlatStorageAndDeltaIterItem.CommitPoint ::
            ds.map (fun kv => FlatStorageAndDeltaIterItem.Entry (.ok kv)))) := by
  induction blocks with
  | nil => intro it; simp [chainDeltas]
  | cons b bs ih =>
    intro it
    cases hb : delta b with
    | none => simp [chainDeltas, hb, ih]; rfl
    | some ds => simp [chainDeltas, hb, ih]; rfl

/-- C2: the merging iterator over a parent shard yields exactly: first every
`(key, some value)` entry of the base flat storage in order, then, for each
block from the flat head to the resharding block taken in ascending height
order (`blocks_to_head.reverse`) that has a delta in the delta log, a single
`CommitPoint` marker followed by that block's delta entries with tombstones
kept as `none` values; blocks with no stored delta contribute neither a
`CommitPoint` nor entries. -/
theorem C2_merging_iterator_yield (base : List (Bytes × FlatStateValue))
    (blocks_to_head : List CryptoHash)
    (delta : CryptoHash → Option (List (Bytes × Option FlatStateValue))) :
    flat_storage_iterator (base.map .ok) blocks_to_head (fun b => .ok (delta b)) =
      .ok ((base.map fun kv => FlatStorageAndDeltaIterItem.Entry (.ok (kv.1, some kv.2))) ++
        blocks_to_head.reverse.flatMap (fun b =>
          match delta b with
          | none => []
          | some ds => FlatStorageAndDeltaIterItem.CommitPoint ::
              ds.map (fun kv => FlatStorageAndDeltaIterItem.Entry (.ok kv)))) := by
  unfold flat_storage_iterator
  rw [chainDeltas_ok]
  congr 2
  simp [Except.map]

/-! ## C3 / C4 — post-processing -/

/-- Fixture: a store holding the splitting parent status plus residual child
data (every shard has a value and a delta, so erasure is observable). -/
def tStore : FlatStore :=
  { status := fun u => if u = tParent then .Resharding (.SplittingParent tStatus) else .Empty
    values := fun _ _ => some (.Inlined [9])
    deltas := fun _ _ => some [] }

/-- Fixture: resharder state with the split event in progress. -/
def tEventState : ResharderState :=
  { store := tStore, resharding_event := some (.SplitShard tParent tStatus), scheduled := [] }

/-- C3: when the split task finishes `Failed` or `Cancelled`, post-processing
commits — in one atomic batch, followed (and only followed) by the clearing of
the resharding-event slot — the parent's status back to `Ready` with the
original flat head captured at start, and the complete removal of both
children's flat storages (status, values and deltas). -/
theorem C3_postprocessing_rollback (manager_has_parent : Bool)
    (task_status : FlatStorageReshardingTaskStatus) (s : ResharderState)
    (parent : ShardUId) (st : SplittingParentStatus) (k : Bytes) (b : CryptoHash)
    (hevent : s.resharding_event = some (.SplitShard parent st))
    (hts : task_status = .Failed ∨ task_status = .Cancelled)
    (hpl : parent ≠ st.left_child_shard) (hpr : parent ≠ st.right_child_shard) :
    (split_shard_task_postprocessing manager_has_parent task_status s).map (fun r => r.2) =
      some [.commit [.setStatus parent (.Ready ⟨st.flat_head⟩),
        .removeFlatStorage st.left_child_shard,
        .removeFlatStorage st.right_child_shard], .clearEvent] ∧
    (split_shard_task_postprocessing manager_has_parent task_status s).map
        (fun r => r.1.store.status parent) = some (.Ready ⟨st.flat_head⟩) ∧
    (split_shard_task_postprocessing manager_has_parent task_status s).map
        (fun r => r.1.store.status st.left_child_shard) = some .Empty ∧
    (split_shard_task_postprocessing manager_has_parent task_status s).map
        (fun r => r.1.store.status st.right_child_shard) = some .Empty ∧
    (split_shard_task_postprocessing manager_has_parent task_status s).map
        (fun r => r.1.store.values st.left_child_shard k) = some none ∧
    (split_shard_task_postprocessing manager_has_parent task_status s).map
        (fun r => r.1.store.values st.right_child_shard k) = some none ∧
    (split_shard_task_postprocessing manager_has_parent task_status s).map
        (fun r => r.1.store.deltas st.left_child_shard b) = some none ∧
    (split_shard_task_postprocessing manager_has_parent task_status s).map
        (fun r => r.1.store.deltas st.right_child_shard b) = some none ∧
    (split_shard_task_postprocessing manager_has_parent task_status s).map
        (fun r => r.1.resharding_event) = some none := by
  rcases hts with rfl | rfl <;>
    simp [split_shard_task_postprocessing, hevent, applyBatch, applyOp, hpl, hpr]

/-- C3 witness: the rollback theorem at the fixture state with a `Failed`
task, key `[0]` and block hash `⟨1⟩`. -/
theorem C3_postprocessing_rollback_witness :
    (split_shard_task_postprocessing true .Failed tEventState).map (fun r => r.2) =
      some [.commit [.setStatus tParent (.Ready ⟨tStatus.flat_head⟩),
        .removeFlatStorage tStatus.left_child_shard,
        .removeFlatStorage tStatus.right_child_shard], .clearEvent] ∧
    (split_shard_task_postprocessing true .Failed tEventState).map
        (fun r => r.1.store.status tParent) = some (.Ready ⟨tStatus.flat_head⟩) ∧
    (split_shard_task_postprocessing true .Failed tEventState).map
        (fun r => r.1.store.status tStatus.left_child_shard) = some .Empty ∧
    (split_shard_task_postprocessing true .Failed tEventState).map
        (fun r => r.1.store.status tStatus.right_child_shard) = some .Empty ∧
    (split_shard_task_postprocessing true .Failed tEventState).map
        (fun r => r.1.store.values tStatus.left_child_shard [0]) = some none ∧
    (split_shard_task_postprocessing true .Failed tEventState).map
        (fun r => r.1.store.values tStatus.right_child_shard [0]) = some none ∧
    (split_shard_task_postprocessing true .Failed tEventState).map
        (fun r => r.1.store.deltas tStatus.left_child_shard ⟨1⟩) = some none ∧
    (split_shard_task_postprocessing true .Failed tEventState).map
        (fun r => r.1.store.deltas tStatus.right_child_shard ⟨1⟩) = some none ∧
    (split_shard_task_postprocessing true .Failed tEventState).map
        (fun r => r.1.resharding_event) = some none :=
  C3_postprocessing_rollback true .Failed tEventState tParent tStatus [0] ⟨1⟩
    rfl (Or.inl rfl) (by decide) (by decide)

/-- C4: when the split task finishes `Successful`, post-processing commits —
in one atomic batch, followed by the clearing of the event slot — the removal
of the parent's flat storage (through the manager entry when present, or the
raw data otherwise; either way the parent's status is erased to `Empty` and
its values and deltas are gone) and sets each child's status to
`Resharding(CatchingUp h)` where `h` is the hash of the flat head captured at
start. -/
theorem C4_postprocessing_success (manager_has_parent : Bool)
    (task_status : FlatStorageReshardingTaskStatus) (n : Nat) (s : ResharderState)
    (parent : ShardUId) (st : SplittingParentStatus) (k : Bytes) (b : CryptoHash)
    (hevent : s.resharding_event = some (.SplitShard parent st))
    (hts : task_status = .Successful n)
    (hpl : parent ≠ st.left_child_shard) (hpr : parent ≠ st.right_child_shard) :
    (split_shard_task_postprocessing manager_has_parent task_status s).map (fun r => r.2) =
      some [.commit [.removeFlatStorage parent,
        .setStatus st.left_child_shard (.Resharding (.CatchingUp st.flat_head.hash)),
        .setStatus st.right_child_shard (.Resharding (.CatchingUp st.flat_head.hash))],
        .clearEvent] ∧
    (split_shard_task_postprocessing manager_has_parent task_status s).map
        (fun r => r.1.store.status parent) = some .Empty ∧
    (split_shard_task_postprocessing manager_has_parent task_status s).map
        (fun r => r.1.store.values parent k) = some none ∧
    (split_shard_task_postprocessing manager_has_parent task_status s).map
        (fun r => r.1.store.deltas parent b) = some none ∧
    (split_shard_task_postprocessing manager_has_parent task_status s).map
        (fun r => r.1.store.status st.left_child_shard) =
      some (.Resharding (.CatchingUp st.flat_head.hash)) ∧
    (split_shard_task_postprocessing manager_has_parent task_status s).map
        (fun r => r.1.store.status st.right_child_shard) =
      some (.Resharding (.CatchingUp st.flat_head.hash)) ∧
    (split_shard_task_postprocessing manager_has_parent task_status s).map
        (fun r => r.1.resharding_event) = some none := by
  subst hts
  cases manager_has_parent <;>
    simp [split_shard_task_postprocessing, hevent, remove_flat_storage_for_shard,
      applyBatch, applyOp, hpl, hpr]

/-- C4 witness: the success theorem at the fixture state (manager entry
absent, so the raw-data removal path is taken), key `[0]`, block hash `⟨1⟩`. -/
theorem C4_postprocessing_success_witness :
    (split_shard_task_postprocessing false (.Successful 2) tEventState).map (fun r => r.2) =
      some [.commit [.removeFlatStorage tParent,
        .setStatus tStatus.left_child_shard (.Resharding (.CatchingUp tStatus.flat_head.hash)),
        .setStatus tStatus.right_child_shard (.Resharding (.CatchingUp tStatus.flat_head.hash))],
        .clearEvent] ∧
    (split_shard_task_postprocessing false (.Successful 2) tEventState).map
        (fun r => r.1.store.status tParent) = some .Empty ∧
    (split_shard_task_postprocessing false (.Successful 2) tEventState).map
        (fun r => r.1.store.values tParent [0]) = some none ∧
    (split_shard_task_postprocessing false (.Successful 2) tEventState).map
        (fun r => r.1.store.deltas tParent ⟨1⟩) = some none ∧
    (split_shard_task_postprocessing false (.Successful 2) tEventState).map
        (fun r => r.1.store.status tStatus.left_child_shard) =
      some (.Resharding (.CatchingUp tStatus.flat_head.hash)) ∧
    (split_shard_task_postprocessing false (.Successful 2) tEventState).map
        (fun r => r.1.store.status tStatus.right_child_shard) =
      some (.Resharding (.CatchingUp tStatus.flat_head.hash)) ∧
    (split_shard_task_postprocessing false (.Successful 2) tEventState).map
        (fun r => r.1.resharding_event) = some none :=
  C4_postprocessing_success false (.Successful 2) 2 tEventState tParent tStatus [0] ⟨1⟩
    rfl rfl (by decide) (by decide)


/-! ## C6 — starting a split -/

/-- Bool test for the `Ready` status variant. -/
def FlatStorageStatus.isReadyStatus : FlatStorageStatus → Bool
  | .Ready _ => true
  | _ => false

/-- The `SplittingParentStatus` record built by `split_shard` (lines 159-166)
from the split parameters, the new layout and the retrieved flat head. -/
def split_status_of (p : ReshardingSplitShardParams) (layout : ShardLayout)
    (fh : BlockInfo) : SplittingParentStatus :=
  { left_child_shard := p.left_child_shard
    right_child_shard := p.right_child_shard
    shard_layout := layout
    block_hash := p.block_hash
    prev_block_hash := p.prev_block_hash
    flat_head := fh }

/-- Fixture: split parameters for the fixture shards. -/
def tParams : ReshardingSplitShardParams :=
  { parent_shard := tParent
    left_child_shard := tLeft
    right_child_shard := tRight
    block_hash := ⟨200⟩
    prev_block_hash := ⟨199⟩ }

/-- Fixture: store with the parent `Ready` and everything else empty. -/
def tReadyStore : FlatStore :=
  { status := fun u => if u = tParent then .Ready ⟨tFlatHead⟩ else .Empty
    values := fun _ _ => none
    deltas := fun _ _ => none }

/-- Fixture: resharder state with no event and the parent `Ready`. -/
def tReadyState : ResharderState :=
  { store := tReadyStore
    resharding_event := none
    scheduled := [] }

/-- Fixture: store with every status `Empty`. -/
def tEmptyStore : FlatStore :=
  { status := fun _ => .Empty
    values := fun _ _ => none
    deltas := fun _ _ => none }

/-- Fixture: resharder state with no event and every status `Empty`. -/
def tNotReadyState : ResharderState :=
  { store := tEmptyStore
    resharding_event := none
    scheduled := [] }

/-- C6: `split_shard` fails with `FlatStorageReshardingAlreadyInProgress` when
a resharding event is already in progress and with an error when the parent's
status is not `Ready`, leaving the state unchanged in both failure cases; when
the preconditions hold it commits, in one atomic batch, the parent's status to
`Resharding(SplittingParent ..)` carrying the flat head taken from the
parent's `Ready` status and both children's statuses to
`Resharding(CreatingChild)` (values, deltas and unrelated statuses are
untouched), and schedules the split with the captured status. -/
theorem C6_split_shard_start (p : ReshardingSplitShardParams) (layout : ShardLayout)
    (s : ResharderState) (fh : BlockInfo) (u : ShardUId) :
    (s.resharding_event.isSome = true →
      split_shard p layout s =
        (.error (.StorageError .FlatStorageReshardingAlreadyInProgress), s)) ∧
    (s.resharding_event = none →
      (s.store.status p.parent_shard).isReadyStatus = false →
      split_shard p layout s =
        (.error (.ReshardingError "flat storage shard status is not ready!"), s)) ∧
    (s.resharding_event = none →
      s.store.status p.parent_shard = .Ready ⟨fh⟩ →
      (split_shard p layout s).1 = .ok () ∧
      (p.parent_shard ≠ p.left_child_shard → p.parent_shard ≠ p.right_child_shard →
        (split_shard p layout s).2.store.status p.parent_shard =
          .Resharding (.SplittingParent (split_status_of p layout fh))) ∧
      (split_shard p layout s).2.store.status p.left_child_shard =
        .Resharding .CreatingChild ∧
      (split_shard p layout s).2.store.status p.right_child_shard =
        .Resharding .CreatingChild ∧
      (u ≠ p.parent_shard → u ≠ p.left_child_shard → u ≠ p.right_child_shard →
        (split_shard p layout s).2.store.status u = s.store.status u) ∧
      (split_shard p layout s).2.store.values = s.store.values ∧
      (split_shard p layout s).2.store.deltas = s.store.deltas ∧
      (split_shard p layout s).2.resharding_event =
        some (.SplitShard p.parent_shard (split_status_of p layout fh)) ∧
      (split_shard p layout s).2.scheduled =
        s.scheduled ++ [(p.parent_shard, split_status_of p layout fh)]) := by
  refine ⟨fun hev => ?_, fun hev hnr => ?_, fun hev hr => ?_⟩
  · simp [split_shard, check_no_resharding_in_progress, hev]
  · cases hst : s.store.status p.parent_shard with
    | Ready r => rw [hst] at hnr; cases hnr
    | Empty =>
      simp [split_shard, check_no_resharding_in_progress, hev,
        retrieve_shard_flat_head, hst]
    | Resharding r =>
      simp [split_shard, check_no_resharding_in_progress, hev,
        retrieve_shard_flat_head, hst]
  · simp only [split_shard, check_no_resharding_in_progress, hev, Option.isSome_none,
      Bool.false_eq_true, if_false, retrieve_shard_flat_head, hr]
    refine ⟨?_, fun h1 h2 => ?_, ?_, ?_, fun h1 h2 h3 => ?_, ?_, ?_, ?_, ?_⟩
    all_goals first
      | trivial
      | simp [schedule_split_shard, applyBatch, applyOp, split_status_of, *]

/-- C6 witness: at concrete states — the event-occupied state and the
not-ready state are rejected unchanged, and the ready state gets the three
status flips and the scheduled request. -/
theorem C6_split_shard_start_witness :
    split_shard tParams tLayout tEventState =
      (.error (.StorageError .FlatStorageReshardingAlreadyInProgress), tEventState) ∧
    split_shard tParams tLayout tNotReadyState =
      (.error (.ReshardingError "flat storage shard status is not ready!"), tNotReadyState) ∧
    (split_shard tParams tLayout tReadyState).1 = .ok () ∧
    (split_shard tParams tLayout tReadyState).2.store.status tParent =
      .Resharding (.SplittingParent (split_status_of tParams tLayout tFlatHead)) ∧
    (split_shard tParams tLayout tReadyState).2.store.status tLeft =
      .Resharding .CreatingChild ∧
    (split_shard tParams tLayout tReadyState).2.store.status tRight =
      .Resharding .CreatingChild ∧
    (split_shard tParams tLayout tReadyState).2.resharding_event =
      some (.SplitShard tParent (split_status_of tParams tLayout tFlatHead)) ∧
    (split_shard tParams tLayout tReadyState).2.scheduled =
      [(tParent, split_status_of tParams tLayout tFlatHead)] := by
  have hc := (C6_split_shard_start tParams tLayout tReadyState tFlatHead tParent).2.2 rfl rfl
  exact ⟨(C6_split_shard_start tParams tLayout tEventState tFlatHead tParent).1 rfl,
    (C6_split_shard_start tParams tLayout tNotReadyState tFlatHead tParent).2.1 rfl rfl,
    hc.1, hc.2.1 (by decide) (by decide), hc.2.2.1, hc.2.2.2.1,
    hc.2.2.2.2.2.2.2.1, hc.2.2.2.2.2.2.2.2⟩

/-! ## C9 — resume with a `SplittingParent` status -/

/-- Fixture: state with no event in progress over the dirty store (children
hold values and deltas). -/
def tDirtyState : ResharderState :=
  { store := tStore
    resharding_event := none
    scheduled := [] }

/-- C9: `resume` called with a `SplittingParent` status first fails if another
resharding event is in progress (state unchanged), and otherwise deletes both
children's flat-storage values and deltas while leaving every status slot —
in particular both children's and the parent's — unchanged, and leaving
values and deltas of unrelated shards unchanged, then reschedules the split
task with the stored status. -/
theorem C9_resume_splitting_parent (shard_uid : ShardUId) (st : SplittingParentStatus)
    (s : ResharderState) (k : Bytes) (b : CryptoHash) (u : ShardUId) :
    (s.resharding_event.isSome = true →
      resume shard_uid (.SplittingParent st) s =
        (.err (.StorageError .FlatStorageReshardingAlreadyInProgress), s)) ∧
    (s.resharding_event = none →
      (resume shard_uid (.SplittingParent st) s).1 = .ok ∧
      (resume shard_uid (.SplittingParent st) s).2.store.values st.left_child_shard k =
        none ∧
      (resume shard_uid (.SplittingParent st) s).2.store.values st.right_child_shard k =
        none ∧
      (resume shard_uid (.SplittingParent st) s).2.store.deltas st.left_child_shard b =
        none ∧
      (resume shard_uid (.SplittingParent st) s).2.store.deltas st.right_child_shard b =
        none ∧
      (resume shard_uid (.SplittingParent st) s).2.store.status = s.store.status ∧
      (u ≠ st.left_child_shard → u ≠ st.right_child_shard →
        (resume shard_uid (.SplittingParent st) s).2.store.values u k =
          s.store.values u k ∧
        (resume shard_uid (.SplittingParent st) s).2.store.deltas u b =
          s.store.deltas u b) ∧
      (resume shard_uid (.SplittingParent st) s).2.resharding_event =
        some (.SplitShard shard_uid st) ∧
      (resume shard_uid (.SplittingParent st) s).2.scheduled =
        s.scheduled ++ [(shard_uid, st)]) := by
  refine ⟨fun hev => ?_, fun hev => ?_⟩
  · simp [resume, check_no_resharding_in_progress, hev]
  · simp only [resume, check_no_resharding_in_progress, hev, Option.isSome_none,
      Bool.false_eq_true, if_false]
    refine ⟨?_, ?_, ?_, ?_, ?_, ?_, fun h1 h2 => ?_, ?_, ?_⟩
    all_goals first
      | trivial
      | simp [schedule_split_shard, clean_children_shards, applyBatch, applyOp, *]

/-- C9 witness: at the event-occupied state `resume` rejects unchanged; at the
dirty no-event state it wipes both children's values and deltas, keeps every
status (checked at the parent), keeps the unrelated shard `⟨3, 0⟩`'s value,
and reschedules the stored status. -/
theorem C9_resume_splitting_parent_witness :
    resume tParent (.SplittingParent tStatus) tEventState =
      (.err (.StorageError .FlatStorageReshardingAlreadyInProgress), tEventState) ∧
    (resume tParent (.SplittingParent tStatus) tDirtyState).1 = .ok ∧
    (resume tParent (.SplittingParent tStatus) tDirtyState).2.store.values tLeft [0] =
      none ∧
    (resume tParent (.SplittingParent tStatus) tDirtyState).2.store.values tRight [0] =
      none ∧
    (resume tParent (.SplittingParent tStatus) tDirtyState).2.store.deltas tLeft ⟨1⟩ =
      none ∧
    (resume tParent (.SplittingParent tStatus) tDirtyState).2.store.deltas tRight ⟨1⟩ =
      none ∧
    (resume tParent (.SplittingParent tStatus) tDirtyState).2.store.status =
      tDirtyState.store.status ∧
    (resume tParent (.SplittingParent tStatus) tDirtyState).2.store.values ⟨3, 0⟩ [0] =
      tDirtyState.store.values ⟨3, 0⟩ [0] ∧
    (resume tParent (.SplittingParent tStatus) tDirtyState).2.resharding_event =
      some (.SplitShard tParent tStatus) ∧
    (resume tParent (.SplittingParent tStatus) tDirtyState).2.scheduled =
      [(tParent, tStatus)] := by
  have hc := (C9_resume_splitting_parent tParent tStatus tDirtyState [0] ⟨1⟩ ⟨3, 0⟩).2 rfl
  exact ⟨(C9_resume_splitting_parent tParent tStatus tEventState [0] ⟨1⟩ ⟨3, 0⟩).1 rfl,
    hc.1, hc.2.1, hc.2.2.1, hc.2.2.2.1, hc.2.2.2.2.1, hc.2.2.2.2.2.1,
    (hc.2.2.2.2.2.2.1 (by decide) (by decide)).1, hc.2.2.2.2.2.2.2.1,
    hc.2.2.2.2.2.2.2.2⟩

/-! ## C7 — placement of cancellation checks -/

/-- Scan of a trace tail: every `.check` event must be immediately preceded by
a `.commit` event (`prev` is the element just before the head). -/
def checksOkFrom : TraceEv → List TraceEv → Bool
  | _, [] => true
  | prev, e :: rest =>
    (match e, prev with
     | .check _, .commit => true
     | .check _, _ => false
     | _, _ => true) && checksOkFrom e rest

/-- Every read of the cancellation flag in a task trace happens either as the
very first event of the task or immediately after a batch commit — never
between the entries of a batch. -/
def checksFollowCommits : List TraceEv → Bool
  | [] => true
  | e :: rest => checksOkFrom e rest

/-- A leading `.entry` imposes no constraint and becomes the new predecessor. -/
theorem checksOkFrom_cons_entry (prev : TraceEv) (l : List TraceEv) :
    checksOkFrom prev (.entry :: l) = checksOkFrom .entry l := by
  cases prev <;> rfl

/-- A leading `.commit` imposes no constraint and becomes the new predecessor. -/
theorem checksOkFrom_cons_commit (prev : TraceEv) (l : List TraceEv) :
    checksOkFrom prev (.commit :: l) = checksOkFrom .commit l := by
  cases prev <;> rfl

/-- Entry runs pass through the scan, leaving `.entry` as predecessor. -/
theorem checksOkFrom_replicate_entry (n : Nat) (prev : TraceEv) (l : List TraceEv) :
    checksOkFrom prev (List.replicate n .entry ++ l) =
      checksOkFrom (if n = 0 then prev else .entry) l := by
  induction n generalizing prev with
  | zero => simp
  | succ m ih =>
    rw [List.replicate_succ, List.cons_append, checksOkFrom_cons_entry, ih]
    cases m <;> simp

/-- Every trace produced by the batched-copy loop keeps its flag reads
immediately after commits, whatever precedes it. -/
theorem splitLoop_checksOkFrom (P : TrieKeyParsers) (status : SplittingParentStatus)
    (batch_size : Nat) (flag : Nat → Bool) :
    ∀ (fuel : Nat) (items : List FlatStorageAndDeltaIterItem) (ci nb : Nat)
      (prev : TraceEv),
      checksOkFrom prev (splitLoop P status batch_size flag fuel items ci nb).2 = true := by
  intro fuel
  induction fuel with
  | zero => intro items ci nb prev; rfl
  | succ m ih =>
    intro items ci nb prev
    simp only [splitLoop]
    cases hdr : drainBatch P status batch_size items 0 [] 0 with
    | failed n =>
      have h := checksOkFrom_replicate_entry n prev []
      rw [List.append_nil] at h
      rw [h]; split <;> rfl
    | panicked msg n =>
      have h := checksOkFrom_replicate_entry n prev []
      rw [List.append_nil] at h
      rw [h]; split <;> rfl
    | drained upd rest iter_exhausted k =>
      have htail : ∀ p, checksOkFrom p
          ([TraceEv.commit, TraceEv.check false] ++
            (splitLoop P status batch_size flag m rest (ci + 1) (nb + 1)).2) = true := by
        intro p
        rw [List.cons_append, checksOkFrom_cons_commit]
        show (true && checksOkFrom (.check false)
          (splitLoop P status batch_size flag m rest (ci + 1) (nb + 1)).2) = true
        rw [Bool.true_and]
        exact ih rest (ci + 1) (nb + 1) (.check false)
      cases iter_exhausted with
      | true =>
        show checksOkFrom prev (List.replicate k TraceEv.entry ++ [TraceEv.commit]) = true
        rw [checksOkFrom_replicate_entry]
        split <;> rfl
      | false =>
        cases hflag : flag ci with
        | true =>
          simp only [hflag]
          show checksOkFrom prev
            (List.replicate k TraceEv.entry ++ [TraceEv.commit, TraceEv.check true]) = true
          rw [checksOkFrom_replicate_entry]
          split <;> rfl
        | false =>
          simp only [hflag]
          show checksOkFrom prev
            (List.replicate k TraceEv.entry ++ [TraceEv.commit, TraceEv.check false] ++
              (splitLoop P status batch_size flag m rest (ci + 1) (nb + 1)).2) = true
          rw [List.append_assoc, checksOkFrom_replicate_entry]
          split <;> exact htail _

/-- A `Successful n` outcome of the loop always has `n` strictly above the
count of batches already done. -/
theorem splitLoop_successful_gt (P : TrieKeyParsers) (status : SplittingParentStatus)
    (batch_size : Nat) (flag : Nat → Bool) :
    ∀ (fuel : Nat) (items : List FlatStorageAndDeltaIterItem) (ci nb n : Nat),
      (splitLoop P status batch_size flag fuel items ci nb).1 =
        .result (.Successful n) → nb < n := by
  intro fuel
  induction fuel with
  | zero => intro items ci nb n h; cases h
  | succ m ih =>
    intro items ci nb n h
    simp only [splitLoop] at h
    cases hdr : drainBatch P status batch_size items 0 [] 0 <;> rw [hdr] at h
    case failed => cases h
    case panicked => cases h
    case drained upd rest iter_exhausted k =>
      cases iter_exhausted with
      | true =>
        have h' : TaskOutcome.result (.Successful (nb + 1)) = .result (.Successful n) := h
        cases h'
        exact Nat.lt_succ_self nb
      | false =>
        cases hflag : flag ci with
        | true =>
          simp only [hflag] at h
          have h' : TaskOutcome.result .Cancelled = .result (.Successful n) := h
          cases h'
        | false =>
          simp only [hflag] at h
          have h' : (splitLoop P status batch_size flag m rest (ci + 1) (nb + 1)).1 =
            .result (.Successful n) := h
          exact Nat.lt_of_succ_lt (ih rest (ci + 1) (nb + 1) n h')

/-- If a run with the never-set flag reaches `Successful n`, any flag that is
still unset at every read index below `n` yields the same outcome: the checks
actually consulted in that run are exactly the indices `nb + 1, …, n - 1`,
and iterator exhaustion is tested before the flag. -/
theorem splitLoop_flag_immaterial (P : TrieKeyParsers) (status : SplittingParentStatus)
    (batch_size : Nat) (flag : Nat → Bool) :
    ∀ (fuel : Nat) (items : List FlatStorageAndDeltaIterItem) (ci nb n : Nat),
      ci = nb + 1 →
      (splitLoop P status batch_size (fun _ => false) fuel items ci nb).1 =
        .result (.Successful n) →
      (∀ i, i < n → flag i = false) →
      (splitLoop P status batch_size flag fuel items ci nb).1 =
        .result (.Successful n) := by
  intro fuel
  induction fuel with
  | zero => intro items ci nb n hci h hflag; cases h
  | succ m ih =>
    intro items ci nb n hci h hflag
    simp only [splitLoop] at h ⊢
    cases hdr : drainBatch P status batch_size items 0 [] 0 with
    | failed e => rw [hdr] at h; simp at h
    | panicked msg e => rw [hdr] at h; simp at h
    | drained upd rest iter_exhausted k =>
      rw [hdr] at h
      cases iter_exhausted with
      | true => exact h
      | false =>
        have h' : (splitLoop P status batch_size (fun _ => false) m rest
            (ci + 1) (nb + 1)).1 = .result (.Successful n) := h
        have hlt : nb + 1 < n :=
          splitLoop_successful_gt P status batch_size (fun _ => false) m rest
            (ci + 1) (nb + 1) n h'
        have hci' : flag ci = false := hflag ci (hci ▸ hlt)
        simp only [hci']
        show (splitLoop P status batch_size flag m rest (ci + 1) (nb + 1)).1 =
          .result (.Successful n)
        exact ih rest (ci + 1) (nb + 1) n (by omega) h' hflag

/-- C7: (1) in every run of the split task, the cancellation flag is consulted
only before the first batch (the trace's first event) or immediately after a
batch commit — never inside a batch; (2) if the flag is set before the task
starts, the task returns `Cancelled` without processing any entry; (3) if the
run without cancellation exhausts the iterator reaching `Successful n`, then
any flag still unset at the reads before the final batch (indices `< n`)
yields the same `Successful n` — in particular a flag set during or after the
final batch is ignored, because exhaustion is checked before cancellation. -/
theorem C7_cancellation_between_batches (fuel : Nat) (P : TrieKeyParsers)
    (status : SplittingParentStatus) (batch_size : Nat) (flag : Nat → Bool)
    (items : List FlatStorageAndDeltaIterItem) (n : Nat) :
    checksFollowCommits (split_shard_task_impl fuel P status batch_size flag items).2 =
      true ∧
    (flag 0 = true →
      split_shard_task_impl fuel P status batch_size flag items =
        (.result .Cancelled, [.check true])) ∧
    ((split_shard_task_impl fuel P status batch_size (fun _ => false) items).1 =
        .result (.Successful n) →
      (∀ i, i < n → flag i = false) →
      (split_shard_task_impl fuel P status batch_size flag items).1 =
        .result (.Successful n)) := by
  refine ⟨?_, fun h0 => ?_, fun hsucc hflag => ?_⟩
  · cases h0 : flag 0 with
    | true =>
      simp only [split_shard_task_impl, h0]
      rfl
    | false =>
      simp only [split_shard_task_impl, h0]
      show checksOkFrom (.check false)
        (splitLoop P status batch_size flag fuel items 1 0).2 = true
      exact splitLoop_checksOkFrom P status batch_size flag fuel items 1 0 (.check false)
  · simp [split_shard_task_impl, h0]
  · have hs : (splitLoop P status batch_size (fun _ => false) fuel items 1 0).1 =
        .result (.Successful n) := by
      simpa [split_shard_task_impl] using hsucc
    have hn : 0 < n :=
      splitLoop_successful_gt P status batch_size (fun _ => false) fuel items 1 0 n hs
    have h0 : flag 0 = false := hflag 0 hn
    simp only [split_shard_task_impl, h0]
    show (splitLoop P status batch_size flag fuel items 1 0).1 = .result (.Successful n)
    exact splitLoop_flag_immaterial P status batch_size flag fuel items 1 0 n rfl hs hflag

/-- Fixture: a single-entry iterator (an ACCOUNT-column key routed to the
left child). -/
def tItems : List FlatStorageAndDeltaIterItem :=
  [.Entry (.ok ([0, 7], some (.Inlined [1])))]

/-- Fixture: a cancellation flag that is unset at read index `0` and set from
read index `1` on. -/
def tFlag : Nat → Bool := fun i => decide (1 ≤ i)

/-- C7 witness: on the single-entry fixture, the trace keeps checks at batch
boundaries; a pre-set flag cancels with no entry processed; and the run
exhausting in its first batch returns `Successful 1` even though the flag is
set from read index `1` on. -/
theorem C7_cancellation_between_batches_witness :
    checksFollowCommits (split_shard_task_impl 2 tParsers tStatus 100 tFlag tItems).2 =
      true ∧
    split_shard_task_impl 2 tParsers tStatus 100 (fun _ => true) tItems =
      (.result .Cancelled, [.check true]) ∧
    (split_shard_task_impl 2 tParsers tStatus 100 tFlag tItems).1 =
      .result (.Successful 1) := by
  refine ⟨(C7_cancellation_between_batches 2 tParsers tStatus 100 tFlag tItems 1).1,
    (C7_cancellation_between_batches 2 tParsers tStatus 100 (fun _ => true) tItems 1).2.1
      rfl,
    (C7_cancellation_between_batches 2 tParsers tStatus 100 tFlag tItems 1).2.2 ?_ ?_⟩
  · rfl
  · intro i hi
    have hz : i = 0 := by omega
    subst hz
    rfl

/-! ## C5 — invariant violations during the copy -/

/-- All column tags the handler knows. -/
def allColumns : List Nat := accountColumns ++ bothChildrenColumns ++ leftChildColumns

/-- A handler abort on the only entry of a single-entry iterator propagates as
a task abort (the `panic!` unwinds out of the task; no `Failed` status). -/
theorem splitTask_single_entry_abort (P : TrieKeyParsers) (status : SplittingParentStatus)
    (batch_size : Nat) (key : Bytes) (value : Option FlatStateValue) (msg : String)
    (hbs : 0 < batch_size)
    (hh : shard_split_handle_key_value P key value [] status = .error (.panicked msg)) :
    (split_shard_task_impl 2 P status batch_size (fun _ => false)
      [.Entry (.ok (key, value))]).1 = .panicked msg := by
  show (splitLoop P status batch_size (fun _ => false) 2
    [.Entry (.ok (key, value))] 1 0).1 = .panicked msg
  have hd : drainBatch P status batch_size [.Entry (.ok (key, value))] 0 [] 0 =
      .panicked msg 1 := by
    simp only [drainBatch]
    rw [if_pos hbs, hh]
  simp only [splitLoop, hd]

/-- A handler error return on the only entry of a single-entry iterator makes
the task return `Failed`. -/
theorem splitTask_single_entry_failed (P : TrieKeyParsers) (status : SplittingParentStatus)
    (batch_size : Nat) (key : Bytes) (value : Option FlatStateValue) (msg : String)
    (hbs : 0 < batch_size)
    (hh : shard_split_handle_key_value P key value [] status =
      .error (.ReshardingError msg)) :
    (split_shard_task_impl 2 P status batch_size (fun _ => false)
      [.Entry (.ok (key, value))]).1 = .result .Failed := by
  show (splitLoop P status batch_size (fun _ => false) 2
    [.Entry (.ok (key, value))] 1 0).1 = .result .Failed
  have hd : drainBatch P status batch_size [.Entry (.ok (key, value))] 0 [] 0 =
      .failed 1 := by
    simp only [drainBatch]
    rw [if_pos hbs, hh]
  simp only [splitLoop, hd]

/-- C5 counterexample: the claim says every invariant violation makes the
release-build task return `Failed`; but on an empty key the code runs
`panic!("flat storage key is empty!")` — an unconditional abort, not a
`Failed` return — so the task outcome is a panic, not `Failed`. -/
theorem C5_counterexample :
    (split_shard_task_impl 2 tParsers tStatus 100 (fun _ => false)
      [.Entry (.ok ([], some (.Inlined [1])))]).1 =
      .panicked "flat storage key is empty!" ∧
    ¬ (split_shard_task_impl 2 tParsers tStatus 100 (fun _ => false)
      [.Entry (.ok ([], some (.Inlined [1])))]).1 = .result .Failed := by
  exact ⟨rfl, by decide⟩

/-- C5 (amended): of the invariant violations encountered during the copy,
only an account id that routes to neither child makes the split task return
the status `Failed` (taking the rollback path); an empty key
(`panic!`) and an unknown column tag (`unreachable!`) abort the process in
every build — debug and release alike — instead of returning `Failed`. -/
theorem C5_invariant_violations (P : TrieKeyParsers) (status : SplittingParentStatus)
    (batch_size : Nat) (key : Bytes) (value : Option FlatStateValue)
    (c : Nat) (rest : Bytes) (account_id : AccountId) (hbs : 0 < batch_size) :
    (key = [] →
      (split_shard_task_impl 2 P status batch_size (fun _ => false)
        [.Entry (.ok (key, value))]).1 = .panicked "flat storage key is empty!") ∧
    (key = c :: rest → c ∈ accountColumns →
      columnParser P c key = .ok account_id →
      derived_child_uid status account_id ≠ status.left_child_shard →
      derived_child_uid status account_id ≠ status.right_child_shard →
      (split_shard_task_impl 2 P status batch_size (fun _ => false)
        [.Entry (.ok (key, value))]).1 = .result .Failed) ∧
    (key = c :: rest → c ∉ allColumns →
      (split_shard_task_impl 2 P status batch_size (fun _ => false)
        [.Entry (.ok (key, value))]).1 = .panicked "unreachable") := by
  refine ⟨fun hkey => ?_, fun hkey hc hparse h1 h2 => ?_, fun hkey hc => ?_⟩
  · subst hkey
    exact splitTask_single_entry_abort P status batch_size [] value
      "flat storage key is empty!" hbs rfl
  · subst hkey
    refine splitTask_single_entry_failed P status batch_size (c :: rest) value
      "account id doesn't map to any child shard!" hbs ?_
    rw [handle_account_column P status c rest value [] hc,
      copy_kv_to_child_spec status (c :: rest) value [] (columnParser P c) account_id hparse]
    simp [h1, h2]
  · subst hkey
    refine splitTask_single_entry_abort P status batch_size (c :: rest) value
      "unreachable" hbs ?_
    have hne : c ≠ col.ACCOUNT ∧ c ≠ col.CONTRACT_DATA ∧ c ≠ col.CONTRACT_CODE ∧
        c ≠ col.ACCESS_KEY ∧ c ≠ col.RECEIVED_DATA ∧ c ≠ col.POSTPONED_RECEIPT_ID ∧
        c ≠ col.PENDING_DATA_COUNT ∧ c ≠ col.POSTPONED_RECEIPT ∧
        c ≠ col.DELAYED_RECEIPT_OR_INDICES ∧ c ≠ col.PROMISE_YIELD_INDICES ∧
        c ≠ col.PROMISE_YIELD_TIMEOUT ∧ c ≠ col.PROMISE_YIELD_RECEIPT ∧
        c ≠ col.BUFFERED_RECEIPT_INDICES ∧ c ≠ col.BUFFERED_RECEIPT := by
      simpa [allColumns, accountColumns, bothChildrenColumns, leftChildColumns,
        not_or] using hc
    obtain ⟨g1, g2, g3, g4, g5, g6, g7, g8, g9, g10, g11, g12, g13, g14⟩ := hne
    simp [shard_split_handle_key_value, g1, g2, g3, g4, g5, g6, g7, g8, g9, g10,
      g11, g12, g13, g14]

/-- C5 witness: with the fixture status — an unroutable account key returns
`Failed`; an empty key aborts with the empty-key panic; the unknown tag `99`
aborts with the `unreachable!` panic. -/
theorem C5_invariant_violations_witness :
    (split_shard_task_impl 2 tParsersAA tStatus 100 (fun _ => false)
      [.Entry (.ok ([0, 7], some (.Inlined [1])))]).1 = .result .Failed ∧
    (split_shard_task_impl 2 tParsersAA tStatus 100 (fun _ => false)
      [.Entry (.ok ([], some (.Inlined [1])))]).1 =
      .panicked "flat storage key is empty!" ∧
    (split_shard_task_impl 2 tParsersAA tStatus 100 (fun _ => false)
      [.Entry (.ok ([99], some (.Inlined [1])))]).1 = .panicked "unreachable" := by
  refine ⟨(C5_invariant_violations tParsersAA tStatus 100 [0, 7] (some (.Inlined [1]))
      0 [7] "aa" (by decide)).2.1 rfl (by decide) rfl (by decide) (by decide),
    (C5_invariant_violations tParsersAA tStatus 100 [] (some (.Inlined [1]))
      0 [] "aa" (by decide)).1 rfl,
    (C5_invariant_violations tParsersAA tStatus 100 [99] (some (.Inlined [1]))
      99 [] "aa" (by decide)).2.2 rfl (by decide)⟩

/-! ## C8 — handling a direct witness-part message -/

/-- Fixture: a production key. -/
def tKey8 : ChunkProductionKey := ⟨1, 0, 5⟩

/-- Fixture: a witness part for that key. -/
def tW8 : PartialEncodedStateWitness :=
  { key := tKey8, part_ord := 0, data := [1, 2], encoded_length := 2 }

/-- Fixture: an environment where validation passes, the chunk producer is
`prod` and the ordered chunk validators are `va`, `prod`, `vb`. -/
def tEnv8 : WitnessEnv :=
  { get_chunk_producer := fun _ => .ok "prod"
    ordered_chunk_validators := fun _ => .ok ["va", "prod", "vb"]
    validate := fun _ => .ok true
    my_signer := some "va" }

/-- C8 counterexample: the claim says the direct handler stores the part in
its partial-witness tracker; but `handle_partial_encoded_state_witness` only
validates and forwards — the tracker is untouched (storing happens only in
`handle_partial_encoded_state_witness_forward`).  At this input validation
passes, the forward goes out, and the resulting tracker does not contain the
part. -/
theorem C8_counterexample :
    handlePartialEncodedStateWitness tEnv8 tW8 ⟨[], []⟩ =
      .ok ⟨[], [.PartialEncodedStateWitnessForward ["va", "vb"] tW8]⟩ ∧
    ¬ tW8 ∈ (WitnessActorState.mk []
      [.PartialEncodedStateWitnessForward ["va", "vb"] tW8]).tracker := by
  exact ⟨rfl, by decide⟩

/-- C8 (amended): on receiving a direct `PartialEncodedStateWitnessMessage`
that passes validation, the receiving validator forwards the part to all
chunk validators for that production key excluding the originating chunk
producer, and leaves its partial-witness tracker unchanged; the part is
stored in the tracker by the handler of the forward message (whose targets
include the part owner itself). -/
theorem C8_direct_witness_forward (env : WitnessEnv) (w : PartialEncodedStateWitness)
    (s : WitnessActorState) (me producer : AccountId) (validators : List AccountId)
    (hsig : env.my_signer = some me)
    (hval : env.validate w = .ok true)
    (hprod : env.get_chunk_producer w.chunk_production_key = .ok producer)
    (hvals : env.ordered_chunk_validators w.chunk_production_key = .ok validators) :
    handlePartialEncodedStateWitness env w s =
      .ok { s with outbox := s.outbox ++
        [.PartialEncodedStateWitnessForward
          (validators.filter (fun v => v ≠ producer)) w] } ∧
    (handlePartialEncodedStateWitness env w s).map (fun s' => s'.tracker) =
      .ok s.tracker ∧
    handlePartialEncodedStateWitnessForward env w s =
      .ok { s with tracker := s.tracker ++ [w] } := by
  refine ⟨?_, ?_, ?_⟩
  · simp [handlePartialEncodedStateWitness, forwardStateWitnessPart, hsig, hval,
      hprod, hvals]
    rfl
  · simp [handlePartialEncodedStateWitness, forwardStateWitnessPart, hsig, hval,
      hprod, hvals, Except.map]
    rfl
  · simp [handlePartialEncodedStateWitnessForward, hsig, hval]
    rfl

/-- C8 witness: the amended theorem at the fixture environment, part and empty
actor state. -/
theorem C8_direct_witness_forward_witness :
    handlePartialEncodedStateWitness tEnv8 tW8 ⟨[], []⟩ =
      .ok { WitnessActorState.mk [] [] with outbox :=
        [] ++ [.PartialEncodedStateWitnessForward
          (["va", "prod", "vb"].filter (fun v => v ≠ "prod")) tW8] } ∧
    (handlePartialEncodedStateWitness tEnv8 tW8 ⟨[], []⟩).map (fun s' => s'.tracker) =
      .ok [] ∧
    handlePartialEncodedStateWitnessForward tEnv8 tW8 ⟨[], []⟩ =
      .ok { WitnessActorState.mk [] [] with tracker := [] ++ [tW8] } :=
  C8_direct_witness_forward tEnv8 tW8 ⟨[], []⟩ "va" "prod" ["va", "prod", "vb"]
    rfl rfl rfl rfl
